import Mathlib

/-!
Shallow embedding of `format_thesis.py` (ThesisFormatter): the heading
classifier, the run/paragraph format applicator, the compliance checker,
the document conversion pipeline, and the configuration loader.

Modelling conventions:
* A docx run is modelled by its `w:t` text together with its `w:rPr`
  element (fonts, size attributes, bold element); a paragraph by its run
  list and its `w:pPr` element (spacing and indent elements).  Attribute
  values that the source reads with `int(...)` are modelled as `Nat`
  (the OOXML attributes involved are non-negative measurements).
* Python `str.strip()` / the regex class `\s` are modelled by the
  predicate `isPySpace` over Unicode code points (the set of characters
  Python treats as whitespace).
* The three module-level regular expressions are modelled as executable
  matchers over `List Char`; `classPlus`/`classStar` implement `C+` for a
  character class `C` with full backtracking (every split is tried), and
  the negative lookahead of `RE_HEADING2` is the continuation
  `notSepDigitAhead`.
* Python floats (`line_spacing`) are modelled as `ℚ`; `int(...)` applied
  to them is `pyInt` (truncation toward zero).
* File IO is factored out: a document is its list of paragraphs, the
  config file is an optional, optionally-parseable `Config` value.
-/

/-- The set of characters that Python `str.strip()` removes and that the
regex class `\s` matches for text patterns (Unicode whitespace). -/
def isPySpace (c : Char) : Bool :=
  (9 ≤ c.toNat && c.toNat ≤ 13) ||
  (28 ≤ c.toNat && c.toNat ≤ 31) ||
  c.toNat = 32 || c.toNat = 0x85 || c.toNat = 0xA0 || c.toNat = 0x1680 ||
  (0x2000 ≤ c.toNat && c.toNat ≤ 0x200A) ||
  c.toNat = 0x2028 || c.toNat = 0x2029 ||
  c.toNat = 0x202F || c.toNat = 0x205F || c.toNat = 0x3000

/-- Python `text.strip()`: drop leading and trailing whitespace. -/
def pyStrip (s : String) : String :=
  String.mk (((s.data.dropWhile isPySpace).reverse.dropWhile isPySpace).reverse)

/-- Character class `[0-9０-９]` of the heading regexes (ASCII and
fullwidth digits). -/
def isDigitChar (c : Char) : Bool :=
  ('0' ≤ c && c ≤ '9') || ('０' ≤ c && c ≤ '９')

/-- Character class `[\.。]` separating numbering components. -/
def isSepChar (c : Char) : Bool :=
  c = '.' || c = '。'

/-- Character class `[一二三四五六七八九十百]` of `RE_HEADING1`. -/
def isCJKNumChar (c : Char) : Bool :=
  c = '一' || c = '二' || c = '三' || c = '四' || c = '五' || c = '六' ||
  c = '七' || c = '八' || c = '九' || c = '十' || c = '百'

/-- `C* k`: zero or more characters of class `p`, then the continuation
`k` on the remaining input; all splits are tried (backtracking). -/
def classStar (p : Char → Bool) (k : List Char → Bool) : List Char → Bool
  | [] => k []
  | c :: rest => (p c && classStar p k rest) || k (c :: rest)

/-- `C+ k`: one or more characters of class `p`, then `k`. -/
def classPlus (p : Char → Bool) (k : List Char → Bool) : List Char → Bool
  | [] => false
  | c :: rest => p c && classStar p k rest

/-- One separator character `[\.。]`, then `k`. -/
def sepThen (k : List Char → Bool) : List Char → Bool
  | [] => false
  | c :: rest => isSepChar c && k rest

/-- The negative lookahead `(?![\.。][0-9０-９])` of `RE_HEADING2`. -/
def notSepDigitAhead : List Char → Bool
  | c1 :: c2 :: _ => !(isSepChar c1 && isDigitChar c2)
  | _ => true

/-- `RE_HEADING3`: `^[0-9０-９]+[\.。][0-9０-９]+[\.。][0-9０-９]+`. -/
def matchHeading3 (cs : List Char) : Bool :=
  classPlus isDigitChar
    (sepThen (classPlus isDigitChar
      (sepThen (classPlus isDigitChar (fun _ => true))))) cs

/-- `RE_HEADING2`: `^[0-9０-９]+[\.。][0-9０-９]+(?![\.。][0-9０-９])`. -/
def matchHeading2 (cs : List Char) : Bool :=
  classPlus isDigitChar
    (sepThen (classPlus isDigitChar notSepDigitAhead)) cs

/-- Trailing class `[\s　\.。、]` of the first alternative of
`RE_HEADING1`. -/
def afterArabicClass : List Char → Bool
  | c :: _ => isPySpace c || c = '　' || c = '.' || c = '。' || c = '、'
  | [] => false

/-- Trailing class `[、\.]` of the second alternative of `RE_HEADING1`. -/
def afterCJKNumClass : List Char → Bool
  | c :: _ => c = '、' || c = '.'
  | [] => false

/-- Trailing class `[章节部篇]` of the third alternative of
`RE_HEADING1`. -/
def afterChapterClass : List Char → Bool
  | c :: _ => c = '章' || c = '节' || c = '部' || c = '篇'
  | [] => false

/-- `RE_HEADING1`: three alternatives — arabic number plus delimiter, CJK
numeral plus delimiter, or `第` plus numeral plus `章/节/部/篇` (the
numeral class of the third alternative admits ASCII digits only). -/
def matchHeading1 (cs : List Char) : Bool :=
  classPlus isDigitChar afterArabicClass cs ||
  classPlus isCJKNumChar afterCJKNumClass cs ||
  (match cs with
   | c :: rest =>
       c = '第' &&
       classPlus (fun d => isCJKNumChar d || ('0' ≤ d && d ≤ '9'))
         afterChapterClass rest
   | [] => false)

/-- `w:rFonts` attributes written by `apply_run_format`. -/
structure RFonts where
  ascii : Option String := none
  hAnsi : Option String := none
  eastAsia : Option String := none
  cs : Option String := none
deriving DecidableEq

/-- `w:rPr`: run properties.  `b` is the `w:b` element: `none` when the
element is absent, `some v` when present with optional `w:val` `v`. -/
structure RPr where
  rFonts : Option RFonts := none
  b : Option (Option String) := none
  sz : Option Nat := none
  szCs : Option Nat := none
deriving DecidableEq

/-- A run: its text and optional `w:rPr` element. -/
structure Run where
  text : String
  rPr : Option RPr := none
deriving DecidableEq

/-- `w:spacing` element attributes written by `apply_para_format`. -/
structure SpacingElem where
  before : Option Int := none
  after : Option Int := none
  line : Option Int := none
  lineRule : Option String := none
deriving DecidableEq

/-- `w:ind` element attributes relevant to the source. -/
structure Ind where
  firstLine : Option Nat := none
  firstLineChars : Option Nat := none
deriving DecidableEq

/-- `w:pPr`: paragraph properties. -/
structure PPr where
  spacing : Option SpacingElem := none
  ind : Option Ind := none
deriving DecidableEq

/-- A paragraph: its run list and optional `w:pPr` element. -/
structure Para where
  runs : List Run
  pPr : Option PPr := none
deriving DecidableEq

instance : Inhabited Para := ⟨{ runs := [] }⟩

/-- `para.text` of python-docx: concatenation of the run texts. -/
def paraText (p : Para) : String :=
  String.join (p.runs.map Run.text)

/-- `get_run_size`: the `w:sz` value of the run, `0` when unreadable. -/
def get_run_size (r : Run) : Nat :=
  match r.rPr with
  | some rPr =>
      match rPr.sz with
      | some v => v
      | none => 0
  | none => 0

/-- `para_max_size`: maximum run size of the paragraph, `0` when there
are no runs. -/
def para_max_size (p : Para) : Nat :=
  match p.runs.map get_run_size with
  | [] => 0
  | s :: ss => ss.foldl max s

/-- One run's bold test from `para_is_bold`: the `w:b` element is present
and its `w:val` (default `"1"`) is not `"0"`. -/
def run_bold_flag (r : Run) : Bool :=
  match r.rPr with
  | some rPr =>
      match rPr.b with
      | some v => v.getD "1" ≠ "0"
      | none => false
  | none => false

/-- `para_is_bold`: some run of the paragraph is bold. -/
def para_is_bold (p : Para) : Bool :=
  p.runs.any run_bold_flag

def HEADING_MAX_LEN : Nat := 40

def MAIN_TITLE_MAX_LEN : Nat := 30

/-- `detect_level`: the ordered classification rules of the source —
over-long or empty text is body; then the three numbering regexes; then
the short-and-prominent main-title test against the neighbor sizes; body
otherwise.  Levels are the source's strings. -/
def detect_level (para : Para) (all_sizes : List Nat) (idx : Nat) : String :=
  let text := pyStrip (paraText para)
  if text = "" ∨ text.length > HEADING_MAX_LEN then "body"
  else if matchHeading3 text.data then "heading3"
  else if matchHeading2 text.data then "heading2"
  else if matchHeading1 text.data then "heading1"
  else if text.length ≤ MAIN_TITLE_MAX_LEN then
    let my_size := para_max_size para
    let prev_size := if idx > 0 then all_sizes.getD (idx - 1) 0 else 0
    let next_size :=
      if idx < all_sizes.length - 1 then all_sizes.getD (idx + 1) 0 else 0
    if para_is_bold para = true ∨
        (my_size > 0 ∧ my_size > prev_size ∧ my_size > next_size) then
      "main_title"
    else "body"
  else "body"

/-- Per-level target sizes (half-points) of a template. -/
structure Sizes where
  main_title : Nat
  heading1 : Nat
  heading2 : Nat
  heading3 : Nat
  body : Nat
deriving DecidableEq

/-- `template["sizes"][level]`.  The source raises `KeyError` on any
other key; callers only pass levels in the range of `detect_level`, the
default branch is unreachable there. -/
def Sizes.get (s : Sizes) (level : String) : Nat :=
  if level = "main_title" then s.main_title
  else if level = "heading1" then s.heading1
  else if level = "heading2" then s.heading2
  else if level = "heading3" then s.heading3
  else if level = "body" then s.body
  else 0

/-- Per-level `[before_pt, after_pt]` spacing pairs of a template. -/
structure SpacingCfg where
  main_title : Int × Int
  heading1 : Int × Int
  heading2 : Int × Int
  heading3 : Int × Int
  body : Int × Int
deriving DecidableEq

/-- `template["spacing"].get(level, [0, 0])`. -/
def SpacingCfg.get (s : SpacingCfg) (level : String) : Int × Int :=
  if level = "main_title" then s.main_title
  else if level = "heading1" then s.heading1
  else if level = "heading2" then s.heading2
  else if level = "heading3" then s.heading3
  else if level = "body" then s.body
  else (0, 0)

/-- A template record; `line_spacing` (a Python float) is modelled as a
rational. -/
structure Template where
  chinese_font : String
  western_font : String
  sizes : Sizes
  line_spacing : ℚ
  spacing : SpacingCfg
  first_line_indent : Bool
deriving DecidableEq

/-- The five level strings `detect_level` can produce. -/
def LEVELS : List String :=
  ["main_title", "heading1", "heading2", "heading3", "body"]

/-- Python `int(...)` on a rational: truncation toward zero. -/
def pyInt (q : ℚ) : Int :=
  if 0 ≤ q then q.floor else q.ceil

/-- `apply_run_format`: ensure `w:rPr` and `w:rFonts` exist, overwrite
the four font attributes, and overwrite `w:sz`/`w:szCs` with the target
size. -/
def apply_run_format (r : Run) (size_half_pt : Nat)
    (chinese_font western_font : String) : Run :=
  let rPr := r.rPr.getD {}
  let rFonts := rPr.rFonts.getD {}
  let rFonts :=
    { rFonts with
      ascii := some western_font
      hAnsi := some western_font
      eastAsia := some chinese_font
      cs := some western_font }
  { r with
    rPr := some
      { rPr with
        rFonts := some rFonts
        sz := some size_half_pt
        szCs := some size_half_pt } }

/-- `apply_para_format`: ensure `w:pPr`, write before/after spacing
(points times 20), the line rule (body uses the template multiplier on
the 240 baseline, headings are forced to single spacing), and the
first-line indent (written only for indented body, cleared otherwise). -/
def apply_para_format (para : Para) (level : String) (t : Template) : Para :=
  let size_half_pt := t.sizes.get level
  let pPr := para.pPr.getD {}
  let sp := pPr.spacing.getD {}
  let ba := t.spacing.get level
  let sp := { sp with before := some (ba.1 * 20), after := some (ba.2 * 20) }
  let multiplier : ℚ := if level = "body" then t.line_spacing else 1
  let sp := { sp with line := some (pyInt (240 * multiplier)), lineRule := some "auto" }
  let ind := pPr.ind.getD {}
  let ind :=
    if t.first_line_indent = true ∧ level = "body" then
      { ind with firstLine := some (size_half_pt * 20) }
    else
      { ind with firstLine := none, firstLineChars := none }
  { para with pPr := some { pPr with spacing := some sp, ind := some ind } }

/-- Read the `w:spacing` element of a paragraph. -/
def para_spacing_elem (p : Para) : Option SpacingElem :=
  match p.pPr with
  | some pr => pr.spacing
  | none => none

/-- Read the `w:ind` element of a paragraph. -/
def para_ind_elem (p : Para) : Option Ind :=
  match p.pPr with
  | some pr => pr.ind
  | none => none

/-- The paragraph's `w:before` spacing attribute. -/
def spacing_before (p : Para) : Option Int :=
  match para_spacing_elem p with
  | some s => s.before
  | none => none

/-- The paragraph's `w:after` spacing attribute. -/
def spacing_after (p : Para) : Option Int :=
  match para_spacing_elem p with
  | some s => s.after
  | none => none

/-- The paragraph's `w:line` spacing attribute. -/
def spacing_line (p : Para) : Option Int :=
  match para_spacing_elem p with
  | some s => s.line
  | none => none

/-- The paragraph's `w:firstLine` indent attribute. -/
def ind_first_line (p : Para) : Option Nat :=
  match para_ind_elem p with
  | some i => i.firstLine
  | none => none

/-- The paragraph's `w:firstLineChars` indent attribute. -/
def ind_first_line_chars (p : Para) : Option Nat :=
  match para_ind_elem p with
  | some i => i.firstLineChars
  | none => none

/-- The checker's first-line-indent presence test (`w:ind` exists and
carries a non-empty `w:firstLine` attribute). -/
def para_has_first_line (p : Para) : Bool :=
  (ind_first_line p).isSome

/-- One issue record of `check_format`. -/
structure Issue where
  level : String
  text : String
  issues : List String
deriving DecidableEq

/-- The size-mismatch message.  The source renders both numbers as
points (the half-point value divided by two); the rendering of the
numbers is presentation only. -/
def size_issue_msg (target current : Nat) : String :=
  "字号应为 " ++ toString target ++ " 半磅，当前为 " ++ toString current ++ " 半磅"

/-- The checker's run-size loop: report the first run whose declared
size is non-zero and differs from the target, then stop (`break`). -/
def scan_size_issues : List Run → Nat → List String
  | [], _ => []
  | r :: rest, target =>
    let current := get_run_size r
    if current ≠ 0 ∧ current ≠ target then [size_issue_msg target current]
    else scan_size_issues rest target

/-- The body of the `check_format` loop, with the enumeration index made
explicit. -/
def check_go (t : Template) (all_sizes : List Nat) : Nat → List Para → List Issue
  | _, [] => []
  | i, p :: rest =>
    let text := pyStrip (paraText p)
    if text = "" ∨ p.runs = [] then check_go t all_sizes (i + 1) rest
    else
      let level := detect_level p all_sizes i
      let target := t.sizes.get level
      let size_issues := scan_size_issues p.runs target
      let indent_issues :=
        if level = "body" ∧ t.first_line_indent = true then
          if para_has_first_line p = true then [] else ["正文缺少首行缩进"]
        else []
      let para_issues := size_issues ++ indent_issues
      if para_issues = [] then check_go t all_sizes (i + 1) rest
      else
        { level := level
          text := String.mk (text.data.take 40)
          issues := para_issues } :: check_go t all_sizes (i + 1) rest

/-- `check_format`, on a loaded document (its paragraph list). -/
def check_format (doc : List Para) (t : Template) : List Issue :=
  check_go t (doc.map para_max_size) 0 doc

/-- One paragraph's processing inside `convert_document`: skip it when
its stripped text is empty or it has no runs; otherwise classify it,
rewrite every run, and rewrite the paragraph format. -/
def convert_one (t : Template) (all_sizes : List Nat) (i : Nat) (p : Para) : Para :=
  if pyStrip (paraText p) = "" ∨ p.runs = [] then p
  else
    let level := detect_level p all_sizes i
    let p :=
      { p with
        runs := p.runs.map
          (fun r => apply_run_format r (t.sizes.get level)
            t.chinese_font t.western_font) }
    apply_para_format p level t

/-- The `convert_document` loop with explicit enumeration index. -/
def convert_go (t : Template) (all_sizes : List Nat) : Nat → List Para → List Para
  | _, [] => []
  | i, p :: rest => convert_one t all_sizes i p :: convert_go t all_sizes (i + 1) rest

/-- `convert_document`, on a loaded document: build the size profile
once, then process each paragraph (the log callback and the final save
carry no formatting content and are omitted). -/
def convert_document (doc : List Para) (t : Template) : List Para :=
  convert_go t (doc.map para_max_size) 0 doc

/-- The persisted configuration: the named template mapping. -/
structure Config where
  templates : List (String × Template)
deriving DecidableEq

/-- The built-in `通用模板` of `DEFAULT_CONFIG`. -/
def tongyong : Template :=
  { chinese_font := "宋体"
    western_font := "Times New Roman"
    sizes := { main_title := 32, heading1 := 30, heading2 := 28, heading3 := 24, body := 21 }
    line_spacing := 3 / 2
    spacing :=
      { main_title := (24, 12)
        heading1 := (24, 6)
        heading2 := (18, 6)
        heading3 := (12, 6)
        body := (0, 0) }
    first_line_indent := true }

/-- The built-in `学术期刊投稿` template of `DEFAULT_CONFIG`. -/
def xueshu : Template :=
  { chinese_font := "宋体"
    western_font := "Times New Roman"
    sizes := { main_title := 32, heading1 := 28, heading2 := 26, heading3 := 24, body := 24 }
    line_spacing := 2
    spacing :=
      { main_title := (12, 12)
        heading1 := (12, 6)
        heading2 := (6, 6)
        heading3 := (6, 3)
        body := (0, 0) }
    first_line_indent := true }

/-- `DEFAULT_CONFIG`. -/
def DEFAULT_CONFIG : Config :=
  ⟨[("通用模板", tongyong), ("学术期刊投稿", xueshu)]⟩

/-- The config file's state: `none` when the file does not exist,
`some none` when it exists but cannot be read or parsed as JSON,
`some (some c)` when it parses to `c`. -/
structure ConfigStore where
  file : Option (Option Config)
deriving DecidableEq

/-- `save_config`: (re)write the config file with the given value. -/
def save_config (c : Config) : ConfigStore :=
  ⟨some (some c)⟩

/-- `load_config`: return the parsed file when it exists and parses; in
every other case (missing file, or the `try` block fails) fall back to
`DEFAULT_CONFIG`, persist it, and return it.  The source's
`except Exception: pass` is the wildcard branch — no failure escapes. -/
def load_config (fs : ConfigStore) : Config × ConfigStore :=
  match fs.file with
  | some (some cfg) => (cfg, fs)
  | _ => (DEFAULT_CONFIG, save_config DEFAULT_CONFIG)

/-- A character list that begins with a three-component number `N.N.N`:
three nonempty digit groups joined by two separator characters, followed
by anything.  This is the spec's reading of a text "beginning with
N.N.N", stated independently of the regex matchers. -/
def ThreeLevelNumbered (cs : List Char) : Prop :=
  ∃ d1 s1 d2 s2 d3 rest,
    d1 ≠ [] ∧ d2 ≠ [] ∧ d3 ≠ [] ∧
    (∀ c ∈ d1, isDigitChar c = true) ∧
    (∀ c ∈ d2, isDigitChar c = true) ∧
    (∀ c ∈ d3, isDigitChar c = true) ∧
    isSepChar s1 = true ∧ isSepChar s2 = true ∧
    cs = d1 ++ s1 :: (d2 ++ s2 :: (d3 ++ rest))

theorem apply_run_format_text (r : Run) (s : Nat) (cf wf : String) :
    (apply_run_format r s cf wf).text = r.text := rfl

theorem apply_run_format_size (r : Run) (s : Nat) (cf wf : String) :
    get_run_size (apply_run_format r s cf wf) = s := by
  cases hr : r.rPr <;> simp [apply_run_format, get_run_size, hr]

theorem apply_run_format_bold (r : Run) (s : Nat) (cf wf : String) :
    run_bold_flag (apply_run_format r s cf wf) = run_bold_flag r := by
  cases hr : r.rPr <;> simp [apply_run_format, run_bold_flag, hr]

theorem apply_para_format_runs (q : Para) (l : String) (t : Template) :
    (apply_para_format q l t).runs = q.runs := rfl

theorem paraText_apply_para (q : Para) (l : String) (t : Template) :
    paraText (apply_para_format q l t) = paraText q := rfl

theorem convert_one_text (t : Template) (sizes : List Nat) (i : Nat) (p : Para) :
    paraText (convert_one t sizes i p) = paraText p := by
  unfold convert_one
  split
  · rfl
  · rw [paraText_apply_para]
    simp [paraText, List.map_map, Function.comp_def, apply_run_format_text]

theorem convert_one_run_info (t : Template) (sizes : List Nat) (i : Nat) (p : Para) :
    (convert_one t sizes i p).runs.map (fun r => (r.text, run_bold_flag r))
      = p.runs.map (fun r => (r.text, run_bold_flag r)) := by
  unfold convert_one
  split
  · rfl
  · rw [apply_para_format_runs]
    simp [List.map_map, Function.comp_def, apply_run_format_text, apply_run_format_bold]

theorem convert_go_map_eq {α : Type} (f : Para → α)
    (hf : ∀ (t : Template) (sizes : List Nat) (i : Nat) (p : Para),
      f (convert_one t sizes i p) = f p)
    (t : Template) (sizes : List Nat) :
    ∀ (k : Nat) (ds : List Para), (convert_go t sizes k ds).map f = ds.map f := by
  intro k ds
  induction ds generalizing k with
  | nil => rfl
  | cons p rest ih => simp [convert_go, hf, ih]

/-- C3: a paragraph whose stripped text is empty, or longer than 40
characters, is always classified body, before any numbering, boldness or
size cue is consulted. -/
theorem C3_long_or_empty_is_body (p : Para) (sizes : List Nat) (idx : Nat)
    (h : pyStrip (paraText p) = "" ∨ 40 < (pyStrip (paraText p)).length) :
    detect_level p sizes idx = "body" := by
  have h' : pyStrip (paraText p) = "" ∨
      (pyStrip (paraText p)).length > HEADING_MAX_LEN := h
  simp only [detect_level, if_pos h']

theorem C3_witness :
    (pyStrip (paraText { runs := [{ text := "一二三四五六七八九十一二三四五六七八九十一二三四五六七八九十一二三四五六七八九十三" }] }) = "" ∨
      40 < (pyStrip (paraText { runs := [{ text := "一二三四五六七八九十一二三四五六七八九十一二三四五六七八九十一二三四五六七八九十三" }] })).length) ∧
    detect_level { runs := [{ text := "一二三四五六七八九十一二三四五六七八九十一二三四五六七八九十一二三四五六七八九十三" }] } [0] 0 = "body" :=
  ⟨Or.inr (by decide),
   C3_long_or_empty_is_body _ [0] 0 (Or.inr (by decide))⟩

/-- C5: `apply_para_format` writes before/after spacing as the
template's point pair for the level times 20, and writes the line value
as 240 times the template multiplier for body but exactly 240 for every
other level. -/
theorem C5_spacing_and_line (p : Para) (level : String) (t : Template)
    (_hl : level ∈ LEVELS) :
    spacing_before (apply_para_format p level t) = some ((t.spacing.get level).1 * 20) ∧
    spacing_after (apply_para_format p level t) = some ((t.spacing.get level).2 * 20) ∧
    (level = "body" →
      spacing_line (apply_para_format p level t) = some (pyInt (240 * t.line_spacing))) ∧
    (level ≠ "body" →
      spacing_line (apply_para_format p level t) = some 240) := by
  refine ⟨?_, ?_, ?_, ?_⟩
  · simp [apply_para_format, spacing_before, para_spacing_elem]
  · simp [apply_para_format, spacing_after, para_spacing_elem]
  · intro hb
    simp [apply_para_format, spacing_line, para_spacing_elem, hb]
  · intro hb
    simp only [apply_para_format, spacing_line, para_spacing_elem, if_neg hb]
    norm_num [pyInt]
    decide

theorem C5_witness :
    "heading1" ∈ LEVELS ∧
    spacing_before (apply_para_format { runs := [] } "heading1" xueshu) = some 240 ∧
    spacing_after (apply_para_format { runs := [] } "heading1" xueshu) = some 120 ∧
    spacing_line (apply_para_format { runs := [] } "heading1" xueshu) = some 240 := by
  have h := C5_spacing_and_line { runs := [] } "heading1" xueshu (by decide)
  exact ⟨by decide, by rw [h.1]; decide, by rw [h.2.1]; decide,
    h.2.2.2 (by decide)⟩

/-- C6: the first-line indent is written exactly when the level is body
and the template enables indentation, with value the body size in
half-points times 20; in every other case both first-line indent
attributes are cleared. -/
theorem C6_indent_written_or_cleared (p : Para) (level : String) (t : Template)
    (hl : level ∈ LEVELS) :
    ((t.first_line_indent = true ∧ level = "body") →
      ind_first_line (apply_para_format p level t) = some (t.sizes.body * 20)) ∧
    (¬(t.first_line_indent = true ∧ level = "body") →
      ind_first_line (apply_para_format p level t) = none ∧
      ind_first_line_chars (apply_para_format p level t) = none) := by
  constructor
  · rintro ⟨hf, hb⟩
    subst hb
    simp [apply_para_format, ind_first_line, para_ind_elem, hf, Sizes.get]
  · intro h
    simp [apply_para_format, ind_first_line, ind_first_line_chars, para_ind_elem, if_neg h]

theorem C6_witness :
    "body" ∈ LEVELS ∧
    ind_first_line (apply_para_format { runs := [] } "body" tongyong) = some 420 ∧
    ind_first_line (apply_para_format { runs := [] } "heading2" tongyong) = none := by
  refine ⟨by decide, ?_, ?_⟩
  · have h := (C6_indent_written_or_cleared { runs := [] } "body" tongyong (by decide)).1
      ⟨rfl, rfl⟩
    rw [h]
    decide
  · exact ((C6_indent_written_or_cleared { runs := [] } "heading2" tongyong
      (by decide)).2 (by decide)).1

/-- C8: when the config file is missing, or present but unreadable or
unparseable, `load_config` surfaces no failure: it returns the built-in
default template set and persists it to the config file. -/
theorem C8_load_config_fallback (fs : ConfigStore)
    (h : fs.file = none ∨ fs.file = some none) :
    load_config fs = (DEFAULT_CONFIG, save_config DEFAULT_CONFIG) := by
  rcases h with h | h <;> simp [load_config, h]

theorem C8_witness :
    (ConfigStore.file ⟨none⟩ = none ∨ ConfigStore.file ⟨none⟩ = some none) ∧
    load_config ⟨none⟩ = (DEFAULT_CONFIG, save_config DEFAULT_CONFIG) :=
  ⟨Or.inl rfl, C8_load_config_fallback ⟨none⟩ (Or.inl rfl)⟩

/-- C9: `apply_run_format` touches only the font and size fields — every
run keeps its text and its bold status — and consequently
`convert_document` preserves every paragraph's text and every run's text
and boldness. -/
theorem C9_convert_preserves_text_and_bold :
    (∀ (r : Run) (s : Nat) (cf wf : String),
      (apply_run_format r s cf wf).text = r.text ∧
      run_bold_flag (apply_run_format r s cf wf) = run_bold_flag r) ∧
    (∀ (doc : List Para) (t : Template),
      (convert_document doc t).map paraText = doc.map paraText ∧
      (convert_document doc t).map (fun p => p.runs.map (fun r => (r.text, run_bold_flag r)))
        = doc.map (fun p => p.runs.map (fun r => (r.text, run_bold_flag r)))) := by
  constructor
  · intro r s cf wf
    exact ⟨apply_run_format_text r s cf wf, apply_run_format_bold r s cf wf⟩
  · intro doc t
    constructor
    · exact convert_go_map_eq paraText convert_one_text t (doc.map para_max_size) 0 doc
    · exact convert_go_map_eq _ convert_one_run_info t (doc.map para_max_size) 0 doc

/-- C10: in the indent-writing branch (body level, indentation enabled),
`apply_para_format` writes `w:firstLine` but leaves any pre-existing
`w:firstLineChars` attribute in place — it is cleared only in the
non-indent branch. -/
theorem C10_first_line_chars_kept (p : Para) (t : Template)
    (hf : t.first_line_indent = true) :
    ind_first_line_chars (apply_para_format p "body" t) = ind_first_line_chars p ∧
    ind_first_line (apply_para_format p "body" t) = some (t.sizes.body * 20) := by
  constructor
  · cases hp : p.pPr with
    | none => simp [apply_para_format, ind_first_line_chars, para_ind_elem, hp, hf]
    | some pr =>
      cases hi : pr.ind with
      | none => simp [apply_para_format, ind_first_line_chars, para_ind_elem, hp, hi, hf]
      | some ind => simp [apply_para_format, ind_first_line_chars, para_ind_elem, hp, hi, hf]
  · simp [apply_para_format, ind_first_line, para_ind_elem, hf, Sizes.get]

theorem C10_witness :
    tongyong.first_line_indent = true ∧
    ind_first_line_chars (apply_para_format
      { runs := [], pPr := some { ind := some { firstLineChars := some 200 } } }
      "body" tongyong) = some 200 :=
  ⟨rfl, by
    rw [(C10_first_line_chars_kept
      { runs := [], pPr := some { ind := some { firstLineChars := some 200 } } }
      tongyong rfl).1]
    decide⟩

theorem classStar_of_cont (p : Char → Bool) (k : List Char → Bool)
    (cs : List Char) (h : k cs = true) : classStar p k cs = true := by
  cases cs <;> simp [classStar, h]

theorem classStar_append (p : Char → Bool) (k : List Char → Bool)
    (d rest : List Char) (hd : ∀ c ∈ d, p c = true) (h : k rest = true) :
    classStar p k (d ++ rest) = true := by
  induction d with
  | nil => exact classStar_of_cont p k rest h
  | cons c d ih =>
    have hc := hd c (by simp)
    have hrec := ih fun x hx => hd x (by simp [hx])
    simp [classStar, hc, hrec]

theorem classPlus_append (p : Char → Bool) (k : List Char → Bool)
    (d rest : List Char) (hne : d ≠ []) (hd : ∀ c ∈ d, p c = true)
    (h : k rest = true) : classPlus p k (d ++ rest) = true := by
  cases d with
  | nil => exact absurd rfl hne
  | cons c d =>
    have hc := hd c (by simp)
    have hrest := classStar_append p k d rest (fun x hx => hd x (by simp [hx])) h
    simp [classPlus, hc, hrest]

theorem matchHeading3_of_three (cs : List Char) (h : ThreeLevelNumbered cs) :
    matchHeading3 cs = true := by
  obtain ⟨d1, s1, d2, s2, d3, rest, h1, h2, h3, hd1, hd2, hd3, hs1, hs2, rfl⟩ := h
  unfold matchHeading3
  apply classPlus_append _ _ _ _ h1 hd1
  simp only [sepThen, hs1, Bool.true_and]
  apply classPlus_append _ _ _ _ h2 hd2
  simp only [sepThen, hs2, Bool.true_and]
  exact classPlus_append _ _ _ _ h3 hd3 rfl

/-- C2: the numbering rules classify the spec's examples as stated, the
two-level pattern rejects `1.2.3`, every paragraph whose stripped text
begins with a three-component number and passes the length gate that
precedes the numbering rules is classified heading3, and no paragraph
whose stripped text begins with a three-component number is ever
classified heading2, since the three-level rule fires first. -/
theorem C2_numbering_rules :
    detect_level { runs := [{ text := "1.2.3 实验结果" }] } [0] 0 = "heading3" ∧
    detect_level { runs := [{ text := "1.2 实验方法" }] } [0] 0 = "heading2" ∧
    detect_level { runs := [{ text := "1 绪论" }] } [0] 0 = "heading1" ∧
    detect_level { runs := [{ text := "第一章 绪论" }] } [0] 0 = "heading1" ∧
    detect_level { runs := [{ text := "一、研究背景" }] } [0] 0 = "heading1" ∧
    matchHeading2 "1.2.3".data = false ∧
    (∀ (p : Para) (sizes : List Nat) (idx : Nat),
      ThreeLevelNumbered (pyStrip (paraText p)).data →
      (pyStrip (paraText p)).length ≤ 40 →
      detect_level p sizes idx = "heading3") ∧
    (∀ (p : Para) (sizes : List Nat) (idx : Nat),
      ThreeLevelNumbered (pyStrip (paraText p)).data →
      detect_level p sizes idx ≠ "heading2") := by
  refine ⟨by decide, by decide, by decide, by decide, by decide, by decide, ?_, ?_⟩
  · intro p sizes idx h hlen
    have hm : matchHeading3 (pyStrip (paraText p)).data = true :=
      matchHeading3_of_three _ h
    have hne : ¬(pyStrip (paraText p) = "" ∨
        (pyStrip (paraText p)).length > HEADING_MAX_LEN) := by
      push_neg
      refine ⟨?_, ?_⟩
      · intro he
        rw [he] at hm
        exact absurd hm (by decide)
      · simp only [HEADING_MAX_LEN]
        omega
    simp only [detect_level, if_neg hne, hm, if_pos]
  · intro p sizes idx h
    have hm : matchHeading3 (pyStrip (paraText p)).data = true :=
      matchHeading3_of_three _ h
    by_cases hgate : pyStrip (paraText p) = "" ∨
        (pyStrip (paraText p)).length > HEADING_MAX_LEN
    · simp only [detect_level, if_pos hgate]
      decide
    · simp only [detect_level, if_neg hgate, hm, if_pos]
      decide

theorem C2_witness :
    ThreeLevelNumbered (pyStrip (paraText { runs := [{ text := "2.3.4" }] })).data ∧
    (pyStrip (paraText { runs := [{ text := "2.3.4" }] })).length ≤ 40 ∧
    detect_level { runs := [{ text := "2.3.4" }] } [0] 0 = "heading3" := by
  have hthree : ThreeLevelNumbered (pyStrip (paraText { runs := [{ text := "2.3.4" }] })).data :=
    ⟨['2'], '.', ['3'], '.', ['4'], [], by decide, by decide, by decide,
      by decide, by decide, by decide, by decide, by decide, by decide⟩
  exact ⟨hthree, by decide,
    C2_numbering_rules.2.2.2.2.2.2.1 { runs := [{ text := "2.3.4" }] } [0] 0 hthree (by decide)⟩

/-- C4: for a paragraph that passes the length gate and matches none of
the numbering patterns, the classification is main_title exactly when
the stripped text has at most 30 characters and the paragraph is bold or
its maximum run size strictly exceeds both neighbor sizes (a missing
neighbor counting as 0); in every other case it is body. -/
theorem C4_main_title_iff (p : Para) (sizes : List Nat) (idx : Nat)
    (hne : pyStrip (paraText p) ≠ "")
    (hlen : (pyStrip (paraText p)).length ≤ 40)
    (h3 : matchHeading3 (pyStrip (paraText p)).data = false)
    (h2 : matchHeading2 (pyStrip (paraText p)).data = false)
    (h1 : matchHeading1 (pyStrip (paraText p)).data = false) :
    (detect_level p sizes idx = "main_title" ↔
      ((pyStrip (paraText p)).length ≤ 30 ∧
        (para_is_bold p = true ∨
          (para_max_size p > (if idx > 0 then sizes.getD (idx - 1) 0 else 0) ∧
           para_max_size p > (if idx < sizes.length - 1 then sizes.getD (idx + 1) 0 else 0))))) ∧
    (detect_level p sizes idx = "main_title" ∨ detect_level p sizes idx = "body") := by
  have hfirst : ¬(pyStrip (paraText p) = "" ∨
      (pyStrip (paraText p)).length > HEADING_MAX_LEN) := by
    push_neg
    exact ⟨hne, by simp only [HEADING_MAX_LEN]; omega⟩
  simp only [detect_level, if_neg hfirst, h3, h2, h1, Bool.false_eq_true, if_false,
    MAIN_TITLE_MAX_LEN]
  by_cases h30 : (pyStrip (paraText p)).length ≤ 30
  · rw [if_pos h30]
    by_cases hprom : para_is_bold p = true ∨
        (para_max_size p > 0 ∧
         para_max_size p > (if idx > 0 then sizes.getD (idx - 1) 0 else 0) ∧
         para_max_size p > (if idx < sizes.length - 1 then sizes.getD (idx + 1) 0 else 0))
    · rw [if_pos hprom]
      refine ⟨⟨fun _ => ⟨h30, ?_⟩, fun _ => rfl⟩, Or.inl rfl⟩
      rcases hprom with hb | ⟨_, hp, hn⟩
      · exact Or.inl hb
      · exact Or.inr ⟨hp, hn⟩
    · rw [if_neg hprom]
      refine ⟨⟨fun hbad => absurd hbad (by decide), fun hc => ?_⟩, Or.inr rfl⟩
      exfalso
      apply hprom
      rcases hc.2 with hb | ⟨hp, hn⟩
      · exact Or.inl hb
      · exact Or.inr ⟨by omega, hp, hn⟩
  · rw [if_neg h30]
    refine ⟨⟨fun hbad => absurd hbad (by decide), fun hc => absurd hc.1 h30⟩, Or.inr rfl⟩

theorem C4_witness :
    (pyStrip (paraText { runs := [{ text := "致谢", rPr := some { b := some none } }] }) ≠ "") ∧
    detect_level { runs := [{ text := "致谢", rPr := some { b := some none } }] } [0] 0
      = "main_title" := by
  refine ⟨by decide, ?_⟩
  exact (C4_main_title_iff { runs := [{ text := "致谢", rPr := some { b := some none } }] }
      [0] 0 (by decide) (by decide) (by decide) (by decide) (by decide)).1.mpr
    ⟨by decide, Or.inl (by decide)⟩

theorem scan_size_issues_first (runs : List Run) (target : Nat) :
    scan_size_issues runs target =
      ((runs.filter (fun r => decide (get_run_size r ≠ 0 ∧ get_run_size r ≠ target))).take 1).map
        (fun r => size_issue_msg target (get_run_size r)) := by
  induction runs with
  | nil => rfl
  | cons r rest ih =>
    by_cases hc : get_run_size r ≠ 0 ∧ get_run_size r ≠ target
    · simp [scan_size_issues, List.filter_cons, hc]
    · simp [scan_size_issues, List.filter_cons, hc, ih]

theorem check_go_mem_ne_nil (t : Template) (s : List Nat) :
    ∀ (ds : List Para) (k : Nat) (item : Issue),
      item ∈ check_go t s k ds → item.issues ≠ [] := by
  intro ds
  induction ds with
  | nil =>
    intro k item h
    simp [check_go] at h
  | cons p rest ih =>
    intro k item h
    simp only [check_go] at h
    repeat' split at h
    all_goals try exact ih (k + 1) item h
    all_goals
      rcases List.mem_cons.mp h with rfl | hmem
      · simp_all
      · exact ih (k + 1) item hmem

/-- C7: the checker's run scan reports exactly the first run whose
declared size is non-zero and differs from the target — hence at most
one size-mismatch description per paragraph — and `check_format` omits
every paragraph whose issue list is empty. -/
theorem C7_one_size_issue_per_para :
    (∀ (runs : List Run) (target : Nat),
      scan_size_issues runs target =
        ((runs.filter (fun r => decide (get_run_size r ≠ 0 ∧ get_run_size r ≠ target))).take 1).map
          (fun r => size_issue_msg target (get_run_size r)) ∧
      (scan_size_issues runs target).length ≤ 1) ∧
    (∀ (doc : List Para) (t : Template) (item : Issue),
      item ∈ check_format doc t → item.issues ≠ []) := by
  constructor
  · intro runs target
    refine ⟨scan_size_issues_first runs target, ?_⟩
    rw [scan_size_issues_first runs target]
    simp only [List.length_map, List.length_take]
    omega
  · intro doc t item h
    exact check_go_mem_ne_nil t (doc.map para_max_size) doc 0 item h

theorem C7_witness :
    scan_size_issues
        [{ text := "甲", rPr := some { sz := some 28 } },
         { text := "乙", rPr := some { sz := some 28 } }] 24
      = [size_issue_msg 24 28] ∧
    ({ level := "main_title", text := "甲乙", issues := [size_issue_msg 32 28] } : Issue)
      ∈ check_format [{ runs := [{ text := "甲", rPr := some { sz := some 28 } },
                                 { text := "乙", rPr := some { sz := some 28 } }] }] tongyong ∧
    ({ level := "main_title", text := "甲乙", issues := [size_issue_msg 32 28] } : Issue).issues ≠ [] := by
  refine ⟨?_, by decide, ?_⟩
  · rw [(C7_one_size_issue_per_para.1
      [{ text := "甲", rPr := some { sz := some 28 } },
       { text := "乙", rPr := some { sz := some 28 } }] 24).1]
    decide
  · exact C7_one_size_issue_per_para.2
      [{ runs := [{ text := "甲", rPr := some { sz := some 28 } },
                  { text := "乙", rPr := some { sz := some 28 } }] }] tongyong
      { level := "main_title", text := "甲乙", issues := [size_issue_msg 32 28] }
      (by decide)

theorem scan_size_issues_nil_of_eq (runs : List Run) (target : Nat)
    (h : ∀ r ∈ runs, get_run_size r = target) :
    scan_size_issues runs target = [] := by
  induction runs with
  | nil => rfl
  | cons r rest ih =>
    have hr := h r (by simp)
    have hc : ¬(get_run_size r ≠ 0 ∧ get_run_size r ≠ target) := by
      rw [hr]
      simp
    simp only [scan_size_issues, if_neg hc]
    exact ih fun x hx => h x (by simp [hx])

theorem convert_one_processed (t : Template) (s : List Nat) (i : Nat) (p : Para)
    (h : ¬(pyStrip (paraText p) = "" ∨ p.runs = [])) :
    convert_one t s i p =
      apply_para_format
        { p with runs := p.runs.map (fun r =>
            apply_run_format r (t.sizes.get (detect_level p s i))
              t.chinese_font t.western_font) }
        (detect_level p s i) t := by
  unfold convert_one
  rw [if_neg h]

theorem convert_one_run_sizes (t : Template) (s : List Nat) (i : Nat) (p : Para)
    (h : ¬(pyStrip (paraText p) = "" ∨ p.runs = [])) :
    ∀ r ∈ (convert_one t s i p).runs,
      get_run_size r = t.sizes.get (detect_level p s i) := by
  intro r hr
  rw [convert_one_processed t s i p h, apply_para_format_runs] at hr
  simp only [List.mem_map] at hr
  obtain ⟨r0, _, rfl⟩ := hr
  exact apply_run_format_size r0 _ _ _

theorem convert_one_runs_ne (t : Template) (s : List Nat) (i : Nat) (p : Para)
    (h : ¬(pyStrip (paraText p) = "" ∨ p.runs = [])) :
    (convert_one t s i p).runs ≠ [] := by
  rw [convert_one_processed t s i p h, apply_para_format_runs]
  simp only [ne_eq, List.map_eq_nil_iff]
  intro hnil
  exact h (Or.inr hnil)

theorem apply_para_format_first_line (q : Para) (t : Template)
    (hf : t.first_line_indent = true) :
    para_has_first_line (apply_para_format q "body" t) = true := by
  simp [apply_para_format, para_has_first_line, ind_first_line, para_ind_elem, hf]

theorem convert_go_getD (t : Template) (s : List Nat) :
    ∀ (ds : List Para) (k j : Nat), j < ds.length →
      (convert_go t s k ds).getD j default
        = convert_one t s (k + j) (ds.getD j default) := by
  intro ds
  induction ds with
  | nil =>
    intro k j hj
    simp at hj
  | cons p rest ih =>
    intro k j hj
    cases j with
    | zero => simp [convert_go]
    | succ j =>
      have hj' : j < rest.length := by simpa using hj
      simp only [convert_go, List.getD_cons_succ]
      rw [ih (k + 1) j hj']
      have heq : k + 1 + j = k + (j + 1) := by omega
      rw [heq]

theorem check_go_convert_nil (t : Template) (s1 s2 : List Nat) :
    ∀ (ds : List Para) (k : Nat),
      (∀ j, j < ds.length →
        ¬(pyStrip (paraText (ds.getD j default)) = "" ∨ (ds.getD j default).runs = []) →
        detect_level (convert_one t s1 (k + j) (ds.getD j default)) s2 (k + j)
          = detect_level (ds.getD j default) s1 (k + j)) →
      check_go t s2 k (convert_go t s1 k ds) = [] := by
  intro ds
  induction ds with
  | nil =>
    intro k _
    rfl
  | cons p rest ih =>
    intro k h
    have hrec : check_go t s2 (k + 1) (convert_go t s1 (k + 1) rest) = [] := by
      apply ih (k + 1)
      intro j hj hp
      have hh := h (j + 1) (by simpa using hj) (by simpa using hp)
      have heq : k + (j + 1) = k + 1 + j := by omega
      rw [heq] at hh
      simpa using hh
    rw [convert_go]
    by_cases hskip : pyStrip (paraText p) = "" ∨ p.runs = []
    · have hcp : convert_one t s1 k p = p := by
        unfold convert_one
        rw [if_pos hskip]
      rw [hcp]
      simp only [check_go]
      rw [if_pos hskip]
      exact hrec
    · have hstab := h 0 (by simp) (by simpa using hskip)
      simp only [List.getD_cons_zero, Nat.add_zero] at hstab
      set q := convert_one t s1 k p with hq
      have hqtext : pyStrip (paraText q) = pyStrip (paraText p) := by
        rw [hq, convert_one_text]
      have hqruns : q.runs ≠ [] := convert_one_runs_ne t s1 k p hskip
      have hqskip : ¬(pyStrip (paraText q) = "" ∨ q.runs = []) := by
        rw [hqtext]
        push_neg
        push_neg at hskip
        exact ⟨hskip.1, hqruns⟩
      simp only [check_go]
      rw [if_neg hqskip, hstab]
      have hscan := scan_size_issues_nil_of_eq q.runs
        (t.sizes.get (detect_level p s1 k)) (convert_one_run_sizes t s1 k p hskip)
      rw [hscan]
      by_cases hb : detect_level p s1 k = "body" ∧ t.first_line_indent = true
      · have hfl : para_has_first_line q = true := by
          rw [hq, convert_one_processed t s1 k p hskip, hb.1]
          exact apply_para_format_first_line _ t hb.2
        rw [if_pos hb, hfl]
        simpa using hrec
      · rw [if_neg hb]
        simpa using hrec

/-- C1 (amended): the idempotence the spec asserts holds only when
re-classifying the converted document is stable.  If classifying the
output of `convert_document` assigns every processed paragraph the same
level as the first run did, then `check_format` with the same template
on that output reports no issue.  Unconditionally the claim is false:
see the counterexample, where conversion itself changes the level. -/
theorem C1_check_after_convert (doc : List Para) (t : Template)
    (hstable : ∀ i, i < doc.length →
      ¬(pyStrip (paraText (doc.getD i default)) = "" ∨ (doc.getD i default).runs = []) →
      detect_level ((convert_document doc t).getD i default)
          ((convert_document doc t).map para_max_size) i
        = detect_level (doc.getD i default) (doc.map para_max_size) i) :
    check_format (convert_document doc t) t = [] := by
  unfold check_format convert_document at *
  apply check_go_convert_nil t (doc.map para_max_size)
    ((convert_go t (doc.map para_max_size) 0 doc).map para_max_size) doc 0
  intro j hj hp
  have h1 := hstable j hj hp
  rw [convert_go_getD t (doc.map para_max_size) doc 0 j hj] at h1
  simpa using h1

/-- C1 is false as stated: a one-paragraph document whose short,
non-bold paragraph declares no run size is classified body on the first
run, but the converted output (body size 21 written to its run) makes it
a local size peak, so re-classification yields main_title and
`check_format` after `convert_document` reports a size mismatch. -/
theorem C1_counterexample :
    detect_level (([{ runs := [{ text := "测试" }] }] : List Para).getD 0 default)
        (([{ runs := [{ text := "测试" }] }] : List Para).map para_max_size) 0 = "body" ∧
    detect_level ((convert_document [{ runs := [{ text := "测试" }] }] tongyong).getD 0 default)
        ((convert_document [{ runs := [{ text := "测试" }] }] tongyong).map para_max_size) 0
      = "main_title" ∧
    check_format (convert_document [{ runs := [{ text := "测试" }] }] tongyong) tongyong
      ≠ [] := by
  refine ⟨by decide, by decide, ?_⟩
  decide

theorem C1_witness :
    check_format
      (convert_document [{ runs := [{ text := "测试", rPr := some { b := some none } }] }] tongyong)
      tongyong = [] :=
  C1_check_after_convert
    [{ runs := [{ text := "测试", rPr := some { b := some none } }] }] tongyong
    (by decide)
